import Mathlib

/-!
Verification of the acmetk ACME server core (acme_broker) against its
natural-language specification.  The Python sources under
acme_broker/server/server.py, acme_broker/models/authorization.py,
acme_broker/models/identifier.py and acme_broker/server/challenge_validator.py
are shallowly embedded below: pure logic becomes Lean functions, database
commits become returned values, exceptions become Except / Option results,
and background-task outcomes (validator results, upstream CA answers,
timeouts) become explicit parameters.
-/

namespace AcmeBroker

/-! Status enumerations, from acme_broker.models. -/

inductive AccountStatus
  | VALID
  | DEACTIVATED
  | REVOKED
deriving DecidableEq

inductive OrderStatus
  | PENDING
  | READY
  | PROCESSING
  | VALID
  | INVALID
deriving DecidableEq

inductive AuthorizationStatus
  | PENDING
  | VALID
  | INVALID
  | DEACTIVATED
  | EXPIRED
  | REVOKED
deriving DecidableEq

inductive ChallengeStatus
  | PENDING
  | PROCESSING
  | VALID
  | INVALID
deriving DecidableEq

inductive CertificateStatus
  | VALID
  | REVOKED
deriving DecidableEq

inductive IdentifierType
  | DNS
deriving DecidableEq

/-- ACME protocol errors raised via acme.messages.Error.with_code, plus
httpNotFound for the aiohttp web.HTTPNotFound exception. -/
inductive AcmeError
  | malformed
  | unauthorized
  | badNonce
  | badSignatureAlgorithm
  | badPublicKey
  | badCSR
  | badRevocationReason
  | accountDoesNotExist
  | termsOfServiceNotAgreed
  | invalidContact
  | orderNotReady
  | orderInvalid
  | httpNotFound
deriving DecidableEq

/-! Nonce store, from AcmeServerBase (server.py lines 137, 274-283).
The server keeps a Python set self._nonces; we embed it as a list with
set-like insert and remove. -/

structure NonceState where
  nonces : List String
deriving DecidableEq

/-- Embeds Python set.add on self._nonces: inserting an element that is
already present leaves the set unchanged. -/
def addNonce (n : String) (l : List String) : List String :=
  if n ∈ l then l else n :: l

/-- Embeds Python set.remove on self._nonces: removes the (single)
occurrence of the element. -/
def removeNonce (n : String) : List String → List String
  | [] => []
  | m :: rest => if m = n then rest else m :: removeNonce n rest

/-- AcmeServerBase._issue_nonce (server.py 274-277): generates a nonce and
adds it to self._nonces.  The generated uuid4 hex string is a parameter. -/
def _issue_nonce (s : NonceState) (nonce : String) : NonceState :=
  { nonces := addNonce nonce s.nonces }

/-- AcmeServerBase._verify_nonce (server.py 279-283): if the nonce is in
self._nonces it is removed, otherwise a badNonce error is raised. -/
def _verify_nonce (s : NonceState) (nonce : String) : Except AcmeError NonceState :=
  if nonce ∈ s.nonces then Except.ok { nonces := removeNonce nonce s.nonces }
  else Except.error AcmeError.badNonce

/-- A request-sequence event on the nonce store: either the server issues a
nonce (in a response) or an authenticated request presents one. -/
inductive NonceOp
  | issue (nonce : String)
  | verify (nonce : String)
deriving DecidableEq

/-- Number of times the trace issues the given nonce. -/
def issueCount (n : String) : List NonceOp → Nat
  | [] => 0
  | NonceOp.issue m :: rest => (if m = n then 1 else 0) + issueCount n rest
  | NonceOp.verify _ :: rest => issueCount n rest

/-- Number of requests in the trace in which the given nonce is accepted,
that is, in which _verify_nonce succeeds on it; a request whose
_verify_nonce fails leaves the store unchanged. -/
def acceptedCount (n : String) (s : NonceState) : List NonceOp → Nat
  | [] => 0
  | NonceOp.issue m :: rest => acceptedCount n (_issue_nonce s m) rest
  | NonceOp.verify m :: rest =>
    match _verify_nonce s m with
    | Except.ok s2 => (if m = n then 1 else 0) + acceptedCount n s2 rest
    | Except.error _ => acceptedCount n s rest

/-- Multiplicity of a nonce in the backing list. -/
def countNonce (n : String) : List String → Nat
  | [] => 0
  | m :: rest => (if m = n then 1 else 0) + countNonce n rest

theorem countNonce_removeNonce_self (n : String) (l : List String) :
    countNonce n (removeNonce n l) + (if n ∈ l then 1 else 0) = countNonce n l := by
  induction l with
  | nil => simp [countNonce, removeNonce]
  | cons m rest ih =>
    by_cases hm : m = n
    · subst hm
      simp [countNonce, removeNonce]
      omega
    · have hnm : ¬ n = m := fun h => hm h.symm
      simp only [countNonce, removeNonce, if_neg hm, List.mem_cons, hnm, false_or]
      omega

theorem countNonce_removeNonce_ne (n m : String) (l : List String) (h : m ≠ n) :
    countNonce n (removeNonce m l) = countNonce n l := by
  induction l with
  | nil => rfl
  | cons k rest ih =>
    by_cases hk : k = m
    · subst hk
      simp [countNonce, removeNonce, h]
    · simp only [countNonce, removeNonce, if_neg hk, ih]

theorem countNonce_addNonce (n m : String) (l : List String) :
    countNonce n (addNonce m l) ≤ (if m = n then 1 else 0) + countNonce n l := by
  unfold addNonce
  by_cases hm : m ∈ l
  · simp only [if_pos hm]
    omega
  · simp only [if_neg hm, countNonce]
    omega

theorem acceptedCount_le (n : String) (ops : List NonceOp) :
    ∀ s : NonceState, acceptedCount n s ops ≤ issueCount n ops + countNonce n s.nonces := by
  induction ops with
  | nil => intro s; simp [acceptedCount, issueCount]
  | cons op rest ih =>
    intro s
    cases op with
    | issue m =>
      have h1 := ih (_issue_nonce s m)
      have h2 := countNonce_addNonce n m s.nonces
      simp only [acceptedCount, issueCount, _issue_nonce] at *
      omega
    | verify m =>
      simp only [acceptedCount, issueCount, _verify_nonce]
      by_cases hm : m ∈ s.nonces
      · simp only [if_pos hm]
        by_cases hmn : m = n
        · subst hmn
          have h1 := ih { nonces := removeNonce m s.nonces }
          have h2 := countNonce_removeNonce_self m s.nonces
          simp only [if_pos hm] at h2
          simp only [eq_self_iff_true, if_true, ite_true] at *
          omega
        · have h1 := ih { nonces := removeNonce m s.nonces }
          have h2 := countNonce_removeNonce_ne n m s.nonces hmn
          simp only [if_neg hmn] at *
          omega
      · simp only [if_neg hm]
        exact ih s

/-- C1: in every sequence of requests starting from the empty nonce store in
which a given nonce is issued at most once, that nonce is accepted by
_verify_nonce in at most one authenticated request; moreover a request
presenting a nonce that is not in the store (in particular an already
consumed one) always fails with badNonce. -/
theorem nonce_accepted_at_most_once (n : String) (ops : List NonceOp)
    (h : issueCount n ops ≤ 1) :
    acceptedCount n { nonces := [] } ops ≤ 1 ∧
      ∀ s : NonceState, n ∉ s.nonces → _verify_nonce s n = Except.error AcmeError.badNonce := by
  constructor
  · have := acceptedCount_le n ops { nonces := [] }
    simp only [countNonce] at this
    omega
  · intro s hs
    simp [_verify_nonce, hs]

/-- Witness for C1 on a concrete trace that issues a nonce once and presents
it twice: it is accepted at most once. -/
theorem nonce_accepted_at_most_once_witness :
    acceptedCount "n1" { nonces := [] }
      [NonceOp.issue "n1", NonceOp.verify "n1", NonceOp.verify "n1"] ≤ 1 :=
  (nonce_accepted_at_most_once "n1"
    [NonceOp.issue "n1", NonceOp.verify "n1", NonceOp.verify "n1"] (by decide)).1

/-! Challenges and authorizations, from acme_broker/models/authorization.py.
Only the fields the embedded operations read are carried. -/

structure Challenge where
  status : ChallengeStatus
deriving DecidableEq

structure Identifier where
  type : IdentifierType
  value : List Char
deriving DecidableEq

structure Authorization where
  status : AuthorizationStatus
  wildcard : Bool
  challenges : List Challenge
deriving DecidableEq

/-- The for-loop of Authorization.finalize (authorization.py 55-58): scan the
challenges in order; on the first one whose status is VALID set the
authorization status to VALID and break, otherwise keep the current status. -/
def finalizeScan (status : AuthorizationStatus) : List Challenge → AuthorizationStatus
  | [] => status
  | c :: rest =>
    if c.status = ChallengeStatus.VALID then AuthorizationStatus.VALID
    else finalizeScan status rest

/-- Authorization.finalize (authorization.py 53-68): after the scan, if the
resulting status is VALID (note: also when the status was already VALID
beforehand), every challenge of this authorization whose status is not VALID
is deleted; the session delete is embedded as keeping only the VALID ones. -/
def Authorization.finalize (a : Authorization) : Authorization :=
  let status := finalizeScan a.status a.challenges
  let challenges :=
    if status = AuthorizationStatus.VALID then
      a.challenges.filter (fun c => c.status == ChallengeStatus.VALID)
    else a.challenges
  { a with status := status, challenges := challenges }

/-- Python str.startswith on character lists: the second list is a starting
segment of the first. -/
def startswith : List Char → List Char → Bool
  | _, [] => true
  | [], _ :: _ => false
  | c :: cs, p :: ps => (c == p) && startswith cs ps

/-- Authorization.create_all (authorization.py 76-83): one pending
authorization per identifier, whose wildcard flag is
identifier.value.startswith of a one-character star. -/
def Authorization.create_all (identifier : Identifier) : List Authorization :=
  [{ status := AuthorizationStatus.PENDING,
     wildcard := startswith identifier.value [ '*' ],
     challenges := [] }]

theorem finalizeScan_any (status : AuthorizationStatus) (l : List Challenge) :
    finalizeScan status l =
      if l.any (fun c => c.status == ChallengeStatus.VALID) then AuthorizationStatus.VALID
      else status := by
  induction l with
  | nil => simp [finalizeScan]
  | cons c rest ih =>
    by_cases hc : c.status = ChallengeStatus.VALID
    · simp [finalizeScan, hc]
    · simp [finalizeScan, hc, ih]

/-- C4 counterexample: an authorization that is already VALID but has a
single PENDING child challenge.  No child challenge is VALID, yet finalize
deletes the pending challenge, so the authorization is not left unchanged. -/
theorem authorization_finalize_counterexample :
    Authorization.finalize
        { status := AuthorizationStatus.VALID, wildcard := false,
          challenges := [{ status := ChallengeStatus.PENDING }] } ≠
      { status := AuthorizationStatus.VALID, wildcard := false,
        challenges := [{ status := ChallengeStatus.PENDING }] } ∧
      ({ status := ChallengeStatus.PENDING } : Challenge).status ≠ ChallengeStatus.VALID := by
  decide

/-- C4 amended: Authorization.finalize sets the status to VALID exactly when
some child challenge is VALID; whenever the resulting status is VALID — also
when the status was already VALID with no VALID child — every non-VALID child
challenge is deleted; when no child is VALID and the status was not already
VALID, the authorization is left unchanged. -/
theorem authorization_finalize_amended (a : Authorization) :
    ((∃ c ∈ a.challenges, c.status = ChallengeStatus.VALID) →
      (a.finalize.status = AuthorizationStatus.VALID ∧
        a.finalize.challenges =
          a.challenges.filter (fun c => c.status == ChallengeStatus.VALID))) ∧
    ((¬ ∃ c ∈ a.challenges, c.status = ChallengeStatus.VALID) →
      a.status ≠ AuthorizationStatus.VALID → a.finalize = a) ∧
    ((¬ ∃ c ∈ a.challenges, c.status = ChallengeStatus.VALID) →
      a.status = AuthorizationStatus.VALID →
      (a.finalize.status = a.status ∧
        a.finalize.challenges =
          a.challenges.filter (fun c => c.status == ChallengeStatus.VALID))) := by
  have hany : a.challenges.any (fun c => c.status == ChallengeStatus.VALID) = true ↔
      ∃ c ∈ a.challenges, c.status = ChallengeStatus.VALID := by
    simp [List.any_eq_true]
  refine ⟨fun h => ?_, fun h hs => ?_, fun h hs => ?_⟩
  · have hv : a.challenges.any (fun c => c.status == ChallengeStatus.VALID) = true :=
      hany.mpr h
    simp [Authorization.finalize, finalizeScan_any, hv]
  · have hv : a.challenges.any (fun c => c.status == ChallengeStatus.VALID) = false := by
      rcases hb : a.challenges.any (fun c => c.status == ChallengeStatus.VALID) with _ | _
      · rfl
      · exact absurd (hany.mp hb) h
    simp [Authorization.finalize, finalizeScan_any, hv, hs]
  · have hv : a.challenges.any (fun c => c.status == ChallengeStatus.VALID) = false := by
      rcases hb : a.challenges.any (fun c => c.status == ChallengeStatus.VALID) with _ | _
      · rfl
      · exact absurd (hany.mp hb) h
    simp [Authorization.finalize, finalizeScan_any, hv, hs]

/-- Witness for C4 amended: a pending authorization with one VALID and one
PENDING child becomes VALID and only the VALID child survives. -/
theorem authorization_finalize_amended_witness :
    (Authorization.finalize
        { status := AuthorizationStatus.PENDING, wildcard := false,
          challenges := [{ status := ChallengeStatus.VALID },
            { status := ChallengeStatus.PENDING }] }).status = AuthorizationStatus.VALID ∧
      (Authorization.finalize
          { status := AuthorizationStatus.PENDING, wildcard := false,
            challenges := [{ status := ChallengeStatus.VALID },
              { status := ChallengeStatus.PENDING }] }).challenges =
        [{ status := ChallengeStatus.VALID }] := by
  have h :=
    (authorization_finalize_amended
        { status := AuthorizationStatus.PENDING, wildcard := false,
          challenges := [{ status := ChallengeStatus.VALID },
            { status := ChallengeStatus.PENDING }] }).1 (by decide)
  exact ⟨h.1, by rw [h.2]; decide⟩

/-- C5 counterexample: for the identifier value star-x the created
authorization has wildcard true although the value does not start with the
two-character sequence star-dot. -/
theorem authorization_wildcard_counterexample :
    (Authorization.create_all
          { type := IdentifierType.DNS, value := [ '*', 'x' ] }).all
        (fun a => a.wildcard) = true ∧
      startswith [ '*', 'x' ] [ '*', '.' ] = false := by
  decide

/-- C5 amended: the wildcard flag of every authorization created by
Authorization.create_all is true exactly when the identifier value starts
with the one-character star, not the two-character star-dot. -/
theorem authorization_wildcard_amended (identifier : Identifier) (a : Authorization)
    (h : a ∈ Authorization.create_all identifier) :
    a.wildcard = true ↔ startswith identifier.value [ '*' ] = true := by
  simp only [Authorization.create_all, List.mem_singleton] at h
  subst h
  exact Iff.rfl

/-- Witness for C5 amended at the identifier value star-dot-a. -/
theorem authorization_wildcard_amended_witness :
    ({ status := AuthorizationStatus.PENDING, wildcard := true,
        challenges := [] } : Authorization).wildcard = true ↔
      startswith [ '*', '.', 'a' ] [ '*' ] = true :=
  authorization_wildcard_amended
    { type := IdentifierType.DNS, value := [ '*', '.', 'a' ] } _ (by decide)

/-! Accounts, certificates, orders and the handlers on them, from server.py. -/

structure Account where
  kid : List Char
  status : AccountStatus
deriving DecidableEq

structure Certificate where
  status : CertificateStatus
  revocation_reason : Option Nat
deriving DecidableEq

/-- Modelled from the spec: Certificate.revoke lives in
acme_broker/models/certificate.py, which is not under src/; per the spec the
certificate transitions VALID to REVOKED (terminal) with the given reason
code recorded. -/
def Certificate.revoke (c : Certificate) (reason : Nat) : Certificate :=
  { c with status := CertificateStatus.REVOKED, revocation_reason := some reason }

/-- AcmeRelayBase.revoke_cert (server.py 1300-1335), after
_verify_revocation succeeded on an existing certificate: the revocation is
first relayed upstream via the internal client; only if the upstream call
reports success is the local certificate revoked and the session committed,
otherwise an unauthorized error is raised and nothing is committed.  The
upstream answer of client.certificate_revoke is the Bool parameter. -/
def relay_revoke_cert (certificate : Certificate) (reason : Nat)
    (revocation_succeeded : Bool) : Except AcmeError Certificate :=
  if ¬ revocation_succeeded then Except.error AcmeError.unauthorized
  else Except.ok (certificate.revoke reason)

/-- C2: in the relay modes the local certificate is marked REVOKED only
after the upstream revocation reports success; upstream failure raises
unauthorized and no revoked certificate is committed, so the local status
is unchanged. -/
theorem relay_revoke_requires_upstream_success (certificate : Certificate)
    (reason : Nat) (ok : Bool) (c2 : Certificate) :
    (relay_revoke_cert certificate reason ok = Except.ok c2 →
      ok = true ∧ c2.status = CertificateStatus.REVOKED) ∧
    relay_revoke_cert certificate reason false = Except.error AcmeError.unauthorized := by
  constructor
  · intro h
    cases ok with
    | false => simp [relay_revoke_cert] at h
    | true =>
      simp only [relay_revoke_cert] at h
      rw [if_neg (by simp)] at h
      injection h with h2
      subst h2
      exact ⟨rfl, rfl⟩
  · simp [relay_revoke_cert]

/-- Witness for C2 at a concrete certificate with upstream success. -/
theorem relay_revoke_requires_upstream_success_witness :
    true = true ∧
      ({ status := CertificateStatus.REVOKED, revocation_reason := some 0 } :
        Certificate).status = CertificateStatus.REVOKED :=
  (relay_revoke_requires_upstream_success
      { status := CertificateStatus.VALID, revocation_reason := none } 0 true
      { status := CertificateStatus.REVOKED, revocation_reason := some 0 }).1 (by rfl)

/-- A certificate signing request as _validate_order reads it: the key size
of its public key, the validity of its self-signature, and the identifier
names it requests (CN plus SANs, as computed by names_of). -/
structure Csr where
  key_size : Nat
  is_signature_valid : Bool
  names : List (List Char)
deriving DecidableEq

structure Order where
  status : OrderStatus
  identifiers : List Identifier
  certificate : Option Certificate
deriving DecidableEq

/-- Modelled from the spec: Order.validate_csr lives in
acme_broker/models/order.py, which is not under src/; per the spec the set
of identifiers of the CSR must equal the identifier set of the order. -/
def Order.validate_csr (o : Order) (csr : Csr) : Bool :=
  ((o.identifiers.map Identifier.value).all (fun v => csr.names.contains v)) &&
    (csr.names.all (fun n => (o.identifiers.map Identifier.value).contains n))

/-- AcmeServerBase._validate_order (server.py 749-788).  The Option Order
argument is the looked-up order after the order.validate() revalidation of
its status (order.validate lives in models/order.py, outside src/); none
embeds the web.HTTPNotFound raise. -/
def _validate_order (rsa_min_keysize : Nat) (order : Option Order) (csr : Csr) :
    Except AcmeError (Order × Csr) :=
  match order with
  | none => Except.error AcmeError.httpNotFound
  | some o =>
    if o.status = OrderStatus.INVALID then Except.error AcmeError.orderInvalid
    else if o.status ≠ OrderStatus.READY then Except.error AcmeError.orderNotReady
    else if csr.key_size < rsa_min_keysize then Except.error AcmeError.badPublicKey
    else if ¬ csr.is_signature_valid then Except.error AcmeError.badCSR
    else if ¬ o.validate_csr csr then Except.error AcmeError.badCSR
    else Except.ok (o, csr)

/-- C3: finalize-order input validation performs its checks in order: an
INVALID order fails with orderInvalid; any other non-READY status fails with
orderNotReady; then a CSR key size below the configured minimum fails with
badPublicKey; then an invalid CSR signature fails with badCSR; then an
identifier-set mismatch fails with badCSR; otherwise the order and CSR are
returned. -/
theorem validate_order_checks (rsa_min_keysize : Nat) (o : Order) (csr : Csr) :
    (o.status = OrderStatus.INVALID →
      _validate_order rsa_min_keysize (some o) csr = Except.error AcmeError.orderInvalid) ∧
    (o.status ≠ OrderStatus.INVALID → o.status ≠ OrderStatus.READY →
      _validate_order rsa_min_keysize (some o) csr = Except.error AcmeError.orderNotReady) ∧
    (o.status = OrderStatus.READY → csr.key_size < rsa_min_keysize →
      _validate_order rsa_min_keysize (some o) csr = Except.error AcmeError.badPublicKey) ∧
    (o.status = OrderStatus.READY → ¬ csr.key_size < rsa_min_keysize →
      csr.is_signature_valid = false →
      _validate_order rsa_min_keysize (some o) csr = Except.error AcmeError.badCSR) ∧
    (o.status = OrderStatus.READY → ¬ csr.key_size < rsa_min_keysize →
      csr.is_signature_valid = true → o.validate_csr csr = false →
      _validate_order rsa_min_keysize (some o) csr = Except.error AcmeError.badCSR) ∧
    (o.status = OrderStatus.READY → ¬ csr.key_size < rsa_min_keysize →
      csr.is_signature_valid = true → o.validate_csr csr = true →
      _validate_order rsa_min_keysize (some o) csr = Except.ok (o, csr)) := by
  refine ⟨fun h1 => ?_, fun h1 h2 => ?_, fun h1 h2 => ?_,
    fun h1 h2 h3 => ?_, fun h1 h2 h3 h4 => ?_, fun h1 h2 h3 h4 => ?_⟩
  · simp [_validate_order, h1]
  · simp [_validate_order, h1, h2]
  · simp [_validate_order, h1, h2]
  · simp [_validate_order, h1, h2, h3]
  · simp [_validate_order, h1, h2, h3, h4]
  · simp [_validate_order, h1, h2, h3, h4]

/-- Witness for C3: a READY order with a matching, well-signed, large-enough
CSR passes every check. -/
theorem validate_order_checks_witness :
    _validate_order 2048
        (some { status := OrderStatus.READY,
                identifiers := [{ type := IdentifierType.DNS, value := [ 'a' ] }],
                certificate := none })
        { key_size := 2048, is_signature_valid := true, names := [[ 'a' ]] } =
      Except.ok
        ({ status := OrderStatus.READY,
           identifiers := [{ type := IdentifierType.DNS, value := [ 'a' ] }],
           certificate := none },
          { key_size := 2048, is_signature_valid := true, names := [[ 'a' ]] }) :=
  (validate_order_checks 2048
      { status := OrderStatus.READY,
        identifiers := [{ type := IdentifierType.DNS, value := [ 'a' ] }],
        certificate := none }
      { key_size := 2048, is_signature_valid := true, names := [[ 'a' ]] }).2.2.2.2.2
    (by decide) (by decide) (by decide) (by decide)

/-- The fields of acme.messages.Registration that new_account reads. -/
structure Registration where
  only_return_existing : Bool
  terms_of_service_agreed : Bool
deriving DecidableEq

/-- The successful outcomes of the new-account handler: status 200 returning
an existing account, or status 201 creating a new one. -/
inductive NewAccountResult
  | existing (account : Account)
  | created (kid : List Char)
deriving DecidableEq

/-- AcmeServerBase.new_account (server.py 486-548), after _verify_request
succeeded in key_auth mode.  The key size of the embedded JWK, the account
found by public key (if any), the parsed registration payload and the
outcome of _validate_contact_info are parameters; session adds and commits
are embedded in the returned value. -/
def new_account (rsa_min_keysize key_size : Nat) (account : Option Account)
    (reg : Registration) (contact_ok : Bool) (new_kid : List Char) :
    Except AcmeError NewAccountResult :=
  if key_size < rsa_min_keysize then Except.error AcmeError.badPublicKey
  else
    match account with
    | some a =>
      if a.status ≠ AccountStatus.VALID then Except.error AcmeError.unauthorized
      else Except.ok (NewAccountResult.existing a)
    | none =>
      if reg.only_return_existing then Except.error AcmeError.accountDoesNotExist
      else if ¬ reg.terms_of_service_agreed then
        Except.error AcmeError.termsOfServiceNotAgreed
      else if ¬ contact_ok then Except.error AcmeError.invalidContact
      else Except.ok (NewAccountResult.created new_kid)

/-- C10: a new-account request whose JWK key size is below the configured
minimum fails with badPublicKey before any account branch is taken — for
every account-lookup result and every registration payload, including pure
lookups with only_return_existing of an account that exists — so no account
is created or returned. -/
theorem new_account_keysize_first (rsa_min_keysize key_size : Nat)
    (account : Option Account) (reg : Registration) (contact_ok : Bool)
    (new_kid : List Char) (h : key_size < rsa_min_keysize) :
    new_account rsa_min_keysize key_size account reg contact_ok new_kid =
      Except.error AcmeError.badPublicKey := by
  simp [new_account, h]

/-- Witness for C10: an undersized key is rejected even though a VALID
account with that key exists and only_return_existing is set. -/
theorem new_account_keysize_first_witness :
    new_account 2048 1024 (some { kid := [ 'k' ], status := AccountStatus.VALID })
        { only_return_existing := true, terms_of_service_agreed := true } true [ 'k' ] =
      Except.error AcmeError.badPublicKey :=
  new_account_keysize_first 2048 1024
    (some { kid := [ 'k' ], status := AccountStatus.VALID })
    { only_return_existing := true, terms_of_service_agreed := true } true [ 'k' ]
    (by decide)

/-! Background challenge validation, from AcmeServerBase._handle_challenge_validate
(server.py 1052-1066) and challenge_validator.py. -/

/-- How the dispatched validator.validate_challenge call ends: normal
return, raising CouldNotValidateChallenge (challenge_validator.py 14-15), or
raising any other exception. -/
inductive ValidationOutcome
  | ok
  | couldNotValidate
  | otherError
deriving DecidableEq

/-- Modelled from the spec: Challenge.validate lives in
acme_broker/models/challenge.py, which is not under src/; per the spec VALID
and INVALID are terminal and never change, and the terminal transition of a
successfully validated challenge makes it VALID. -/
def Challenge.validate (c : Challenge) : Challenge :=
  match c.status with
  | ChallengeStatus.VALID => c
  | ChallengeStatus.INVALID => c
  | _ => { c with status := ChallengeStatus.VALID }

/-- AcmeServerBase._handle_challenge_validate (server.py 1052-1066): the
validator is dispatched by challenge type; only CouldNotValidateChallenge is
caught, setting the challenge status to INVALID before challenge.validate
runs and the session commits.  Any other exception escapes the task before
the commit, embedded as none: no challenge state is committed. -/
def _handle_challenge_validate (challenge : Challenge) (outcome : ValidationOutcome) :
    Option Challenge :=
  match outcome with
  | ValidationOutcome.ok => some (Challenge.validate challenge)
  | ValidationOutcome.couldNotValidate =>
    some (Challenge.validate { challenge with status := ChallengeStatus.INVALID })
  | ValidationOutcome.otherError => none

/-- C6 counterexample: when the validator raises an exception other than
CouldNotValidateChallenge on a PROCESSING challenge, no challenge state is
committed at all — in particular the status is not set to INVALID. -/
theorem challenge_validate_error_counterexample :
    _handle_challenge_validate { status := ChallengeStatus.PROCESSING }
        ValidationOutcome.otherError = none ∧
      ¬ _handle_challenge_validate { status := ChallengeStatus.PROCESSING }
          ValidationOutcome.otherError =
        some { status := ChallengeStatus.INVALID } := by
  decide

/-- C6 amended: a CouldNotValidateChallenge from the validator sets the
challenge status to INVALID and commits it; any other exception is not
caught, so it escapes the background task and no status change is
committed. -/
theorem challenge_validate_amended (challenge : Challenge) :
    _handle_challenge_validate challenge ValidationOutcome.couldNotValidate =
        some { status := ChallengeStatus.INVALID } ∧
      _handle_challenge_validate challenge ValidationOutcome.otherError = none := by
  exact ⟨rfl, rfl⟩

/-! Proxy-mode finalization, from AcmeProxy.finalize_order
(server.py 1513-1544), AcmeProxy.handle_order_finalize (1546-1566) and
AcmeRelayBase._obtain_and_store_cert (1337-1356). -/

/-- The bound of the asyncio.wait_for call on client.order_finalize in
AcmeProxy.finalize_order (server.py 1521): 10.0 seconds. -/
def proxy_finalize_wait_seconds : Nat := 10

/-- Whether the bounded wait on the upstream finalization raised
asyncio.TimeoutError or returned. -/
inductive UpstreamFinalizeOutcome
  | timeout
  | success
deriving DecidableEq

/-- AcmeProxy.finalize_order (server.py 1513-1544), after _validate_order
succeeded: on timeout of the bounded upstream wait the order is committed
INVALID, otherwise it is committed PROCESSING; handle_order_finalize — the
certificate-chain download — is scheduled exactly when the committed status
is PROCESSING.  Returns the committed order and the scheduling flag. -/
def proxy_finalize_order (o : Order) (outcome : UpstreamFinalizeOutcome) : Order × Bool :=
  let o2 :=
    match outcome with
    | UpstreamFinalizeOutcome.timeout => { o with status := OrderStatus.INVALID }
    | UpstreamFinalizeOutcome.success => { o with status := OrderStatus.PROCESSING }
  (o2, o2.status == OrderStatus.PROCESSING)

/-- AcmeRelayBase._obtain_and_store_cert (server.py 1337-1356): the full
chain obtained from the upstream CA is split into PEM certificates; with
fewer than two certificates the order becomes INVALID, otherwise the leaf
and chain are stored as a VALID certificate and the order becomes VALID.
AcmeProxy.handle_order_finalize (1546-1566) refetches the order and calls
this before committing. -/
def _obtain_and_store_cert (o : Order) (certs : List (List Char)) : Order :=
  if certs.length < 2 then { o with status := OrderStatus.INVALID }
  else
    { o with
      certificate := some { status := CertificateStatus.VALID, revocation_reason := none },
      status := OrderStatus.VALID }

/-- C9: the proxy upstream finalization wait is bounded at 10 seconds; on
timeout the local order is committed INVALID and no download is scheduled;
on success the order is committed PROCESSING with the certificate-chain
download scheduled, and once the chain (at least two certificates) is
stored the order reaches VALID. -/
theorem proxy_finalize_bounded_wait (o : Order) (certs : List (List Char)) :
    proxy_finalize_wait_seconds = 10 ∧
    ((proxy_finalize_order o UpstreamFinalizeOutcome.timeout).1.status =
        OrderStatus.INVALID ∧
      (proxy_finalize_order o UpstreamFinalizeOutcome.timeout).2 = false) ∧
    ((proxy_finalize_order o UpstreamFinalizeOutcome.success).1.status =
        OrderStatus.PROCESSING ∧
      (proxy_finalize_order o UpstreamFinalizeOutcome.success).2 = true) ∧
    (2 ≤ certs.length →
      (_obtain_and_store_cert o certs).status = OrderStatus.VALID ∧
        (_obtain_and_store_cert o certs).certificate.isSome = true) := by
  refine ⟨rfl, ⟨rfl, rfl⟩, ⟨rfl, rfl⟩, fun h => ?_⟩
  have h2 : ¬ certs.length < 2 := by omega
  simp [_obtain_and_store_cert, h2]

/-- Witness for C9 with a two-certificate chain. -/
theorem proxy_finalize_bounded_wait_witness :
    (_obtain_and_store_cert
          { status := OrderStatus.PROCESSING, identifiers := [], certificate := none }
          [[ 'a' ], [ 'b' ]]).status = OrderStatus.VALID ∧
      (_obtain_and_store_cert
            { status := OrderStatus.PROCESSING, identifiers := [], certificate := none }
            [[ 'a' ], [ 'b' ]]).certificate.isSome = true :=
  (proxy_finalize_bounded_wait
      { status := OrderStatus.PROCESSING, identifiers := [], certificate := none }
      [[ 'a' ], [ 'b' ]]).2.2.2 (by decide)

/-! Host-IP middleware, from AcmeServerBase.host_ip_middleware
(server.py 1088-1123). -/

/-- Splits a character list at dots, like Python str.split on a dot. -/
def splitDots : List Char → List (List Char)
  | [] => [[]]
  | c :: rest =>
    let r := splitDots rest
    if c = '.' then [] :: r
    else
      match r with
      | [] => [[ c ]]
      | g :: gs => (c :: g) :: gs

/-- Decimal value of a digit string. -/
def digitsVal (l : List Char) : Nat :=
  l.foldl (fun acc c => acc * 10 + (c.toNat - 48)) 0

/-- One dotted-quad octet: one to three digits, value at most 255. -/
def parseOctet (part : List Char) : Option Nat :=
  if part ≠ [] ∧ part.all Char.isDigit ∧ part.length ≤ 3 ∧ digitsVal part ≤ 255 then
    some (digitsVal part)
  else none

/-- Models ipaddress.ip_address from the Python standard library, restricted
to IPv4 dotted-quad strings: exactly four dot-separated decimal octets, each
at most 255, yielding the 32-bit address value.  Any other string — in
particular a comma-separated list of several addresses, which contains
commas and spaces — raises ValueError, embedded as none. -/
def ip_address (s : List Char) : Option Nat :=
  match (splitDots s).mapM parseOctet with
  | some [a, b, c, d] => some (((a * 256 + b) * 256 + c) * 256 + d)
  | _ => none

/-- A CIDR subnet from the configured whitelist, as built by
ipaddress.ip_network in the server constructor (server.py 120-122). -/
structure IpNetwork where
  address : Nat
  maskLen : Nat
deriving DecidableEq

/-- Membership of an IPv4 address in a CIDR network, the Python containment
check of host_ip in subnet. -/
def ipInNetwork (ip : Nat) (net : IpNetwork) : Bool :=
  ip / 2 ^ (32 - net.maskLen) == net.address / 2 ^ (32 - net.maskLen)

/-- Outcome of the middleware: the 400 spoofing response, the 403 subnet
response, an escaped ValueError from ipaddress.ip_address, or the handler
invocation with the actual_ip attached to the request. -/
inductive MiddlewareResult
  | badRequest
  | forbidden
  | valueError
  | proceed (actual_ip : Nat)
deriving DecidableEq

/-- Python truthiness of request.headers.get: an absent header is None and
an empty header string is falsy. -/
def headerTruthy : Option (List Char) → Bool
  | some s => !s.isEmpty
  | none => false

/-- AcmeServerBase.host_ip_middleware (server.py 1088-1123): with a truthy
X-Forwarded-For header and use_forwarded_header unset, respond 400; then
ipaddress.ip_address is applied to the whole header value (or to
request.remote when the header is not truthy), the result is attached to the
request as actual_ip and checked against the subnet whitelist. -/
def host_ip_middleware (use_forwarded_header : Bool)
    (subnets : Option (List IpNetwork)) (forwarded_for : Option (List Char))
    (remote : List Char) : MiddlewareResult :=
  if headerTruthy forwarded_for && !use_forwarded_header then MiddlewareResult.badRequest
  else
    let source := if headerTruthy forwarded_for then forwarded_for.getD [] else remote
    match ip_address source with
    | none => MiddlewareResult.valueError
    | some host_ip =>
      match subnets with
      | some nets =>
        if !nets.isEmpty && !(nets.any (fun net => ipInNetwork host_ip net)) then
          MiddlewareResult.forbidden
        else MiddlewareResult.proceed host_ip
      | none => MiddlewareResult.proceed host_ip

/-- C7 counterexample: with use_forwarded_header true and an X-Forwarded-For
header listing two addresses, the middleware does not take the first address
as the client IP — the whole header fails to parse as one address and the
request errors — although the first address alone is a valid IP. -/
theorem host_ip_middleware_counterexample :
    host_ip_middleware true none
        (some [ '1', '.', '2', '.', '3', '.', '4', ',', ' ',
          '5', '.', '6', '.', '7', '.', '8' ])
        [ '9', '.', '9', '.', '9', '.', '9' ] = MiddlewareResult.valueError ∧
      ip_address [ '1', '.', '2', '.', '3', '.', '4' ] = some 16909060 := by
  decide

/-- C7 amended: if use_forwarded_header is false and a non-empty
X-Forwarded-For header is present the server responds 400; if it is true the
entire header value is parsed as a single IP address: a one-address header
yields the client IP that is checked against the subnet whitelist and handed
to the handler (and so to challenge validators), while a header that is not
a single address makes the request fail with a parse error instead of using
its first address. -/
theorem host_ip_middleware_amended (subnets : Option (List IpNetwork))
    (s remote : List Char) (hs : s ≠ []) :
    (host_ip_middleware false subnets (some s) remote = MiddlewareResult.badRequest) ∧
    (ip_address s = none →
      host_ip_middleware true subnets (some s) remote = MiddlewareResult.valueError) ∧
    (∀ ip, ip_address s = some ip →
      host_ip_middleware true none (some s) remote = MiddlewareResult.proceed ip) ∧
    (∀ ip nets, ip_address s = some ip →
      host_ip_middleware true (some nets) (some s) remote =
        if !nets.isEmpty && !(nets.any (fun net => ipInNetwork ip net)) then
          MiddlewareResult.forbidden
        else MiddlewareResult.proceed ip) := by
  have ht : headerTruthy (some s) = true := by
    cases s with
    | nil => exact absurd rfl hs
    | cons a l => rfl
  refine ⟨?_, fun hip => ?_, fun ip hip => ?_, fun ip nets hip => ?_⟩
  · simp [host_ip_middleware, ht]
  · simp [host_ip_middleware, ht, hip]
  · simp [host_ip_middleware, ht, hip]
  · simp [host_ip_middleware, ht, hip]

/-- Witness for C7 at a single-address header with no subnet whitelist. -/
theorem host_ip_middleware_amended_witness :
    host_ip_middleware true none
        (some [ '1', '.', '2', '.', '3', '.', '4' ]) [ '9', '.', '9', '.', '9', '.', '9' ] =
      MiddlewareResult.proceed 16909060 :=
  (host_ip_middleware_amended none [ '1', '.', '2', '.', '3', '.', '4' ]
      [ '9', '.', '9', '.', '9', '.', '9' ] (by decide)).2.2.1 16909060 (by decide)

/-! Account resolution in kid mode, from AcmeServerBase._verify_request
(server.py 356-384). -/

/-- The last path segment of a URL, as the yarl name property: the
characters after the final slash. -/
def lastSegment (url : List Char) : List Char :=
  (url.reverse.takeWhile (fun c => c != '/')).reverse

/-- The canonical accounts route url_for(request, accounts, kid): the server
base followed by the accounts path and the kid segment. -/
def url_for_accounts (base kid : List Char) : List Char :=
  base ++ [ '/', 'a', 'c', 'c', 'o', 'u', 'n', 't', 's', '/' ] ++ kid

/-- The new-account route url_for(request, new-account). -/
def url_for_new_account (base : List Char) : List Char :=
  base ++ [ '/', 'n', 'e', 'w', '-', 'a', 'c', 'c', 'o', 'u', 'n', 't' ]

/-- The documented buggy dehydrated-client variant (server.py 360-368): the
new-account route with the kid segment appended. -/
def url_new_account_variant (base kid : List Char) : List Char :=
  url_for_new_account base ++ '/' :: kid

/-- Loading and checking the account for a kid (server.py 374-384): missing
account raises accountDoesNotExist, a non-VALID account or a bad signature
raises unauthorized. -/
def resolveAccount (kid : List Char) (get_account : List Char → Option Account)
    (signature_ok : Account → Bool) : Except AcmeError Account :=
  match get_account kid with
  | none => Except.error AcmeError.accountDoesNotExist
  | some account =>
    if account.status ≠ AccountStatus.VALID then Except.error AcmeError.unauthorized
    else if ¬ signature_ok account then Except.error AcmeError.unauthorized
    else Except.ok account

/-- The kid branch of AcmeServerBase._verify_request (server.py 356-384):
the kid is the last segment of the kid URL of the signature; if the kid URL
is not the canonical accounts route for that segment, only the documented
buggy new-account variant is accepted and anything else is malformed; on the
canonical route a mismatching kid in the handler match-info is malformed;
then the account is loaded and checked. -/
def _verify_request_kid (base sig_kid : List Char) (match_info_kid : Option (List Char))
    (get_account : List Char → Option Account) (signature_ok : Account → Bool) :
    Except AcmeError Account :=
  if url_for_accounts base (lastSegment sig_kid) ≠ sig_kid then
    if url_new_account_variant base (lastSegment sig_kid) = sig_kid then
      resolveAccount (lastSegment sig_kid) get_account signature_ok
    else Except.error AcmeError.malformed
  else if match_info_kid.isSome ∧ match_info_kid ≠ some (lastSegment sig_kid) then
    Except.error AcmeError.malformed
  else resolveAccount (lastSegment sig_kid) get_account signature_ok

theorem resolveAccount_ok (kid : List Char) (get_account : List Char → Option Account)
    (signature_ok : Account → Bool) (account : Account)
    (h : resolveAccount kid get_account signature_ok = Except.ok account) :
    get_account kid = some account := by
  unfold resolveAccount at h
  cases hga : get_account kid with
  | none => rw [hga] at h; exact Except.noConfusion h
  | some a =>
    rw [hga] at h
    by_cases h1 : a.status = AccountStatus.VALID
    · by_cases h2 : signature_ok a
      · simp [h1, h2] at h
        rw [h]
      · simp [h1, h2] at h
    · simp [h1] at h

/-- C8: whenever the kid branch of _verify_request accepts a request, the
kid URL of its signature is either the canonical accounts route for its
trailing kid segment or the documented buggy new-account variant — any other
URL shape is rejected — and the resolved account is stored under exactly
that trailing kid segment. -/
theorem verify_kid_accepted_shapes (base sig_kid : List Char)
    (match_info_kid : Option (List Char)) (get_account : List Char → Option Account)
    (signature_ok : Account → Bool)
    (hdb : ∀ k a, get_account k = some a → a.kid = k) (account : Account)
    (hacc : _verify_request_kid base sig_kid match_info_kid get_account signature_ok =
      Except.ok account) :
    (url_for_accounts base (lastSegment sig_kid) = sig_kid ∨
      url_new_account_variant base (lastSegment sig_kid) = sig_kid) ∧
    account.kid = lastSegment sig_kid := by
  unfold _verify_request_kid at hacc
  by_cases h1 : url_for_accounts base (lastSegment sig_kid) = sig_kid
  · rw [if_neg (not_not_intro h1)] at hacc
    by_cases h3 : match_info_kid.isSome ∧ match_info_kid ≠ some (lastSegment sig_kid)
    · rw [if_pos h3] at hacc
      exact Except.noConfusion hacc
    · rw [if_neg h3] at hacc
      exact ⟨Or.inl h1,
        hdb _ _ (resolveAccount_ok (lastSegment sig_kid) get_account signature_ok account hacc)⟩
  · rw [if_pos h1] at hacc
    by_cases h2 : url_new_account_variant base (lastSegment sig_kid) = sig_kid
    · rw [if_pos h2] at hacc
      exact ⟨Or.inr h2,
        hdb _ _ (resolveAccount_ok (lastSegment sig_kid) get_account signature_ok account hacc)⟩
    · rw [if_neg h2] at hacc
      exact Except.noConfusion hacc

/-- Witness for C8 on the canonical accounts route with a one-account
database in which every kid maps to a VALID account under that kid. -/
theorem verify_kid_accepted_shapes_witness :
    (url_for_accounts []
          (lastSegment [ '/', 'a', 'c', 'c', 'o', 'u', 'n', 't', 's', '/', 'k' ]) =
        [ '/', 'a', 'c', 'c', 'o', 'u', 'n', 't', 's', '/', 'k' ] ∨
      url_new_account_variant []
          (lastSegment [ '/', 'a', 'c', 'c', 'o', 'u', 'n', 't', 's', '/', 'k' ]) =
        [ '/', 'a', 'c', 'c', 'o', 'u', 'n', 't', 's', '/', 'k' ]) ∧
    ({ kid := [ 'k' ], status := AccountStatus.VALID } : Account).kid =
      lastSegment [ '/', 'a', 'c', 'c', 'o', 'u', 'n', 't', 's', '/', 'k' ] :=
  verify_kid_accepted_shapes [] [ '/', 'a', 'c', 'c', 'o', 'u', 'n', 't', 's', '/', 'k' ]
    none (fun k => some { kid := k, status := AccountStatus.VALID }) (fun _ => true)
    (fun _ _ h => by cases h; rfl)
    { kid := [ 'k' ], status := AccountStatus.VALID } (by rfl)

end AcmeBroker
